import Mathlib

/-!
Shallow embedding of `src/agent.py` (wind-farm site comparison agent).

The repository wires mocked tool functions into a sequential agent
pipeline.  Pure data transformations are embedded as Lean functions;
the external image-classification collaborator (a generative-model call)
is a parameter of type `String → Except String String`, mirroring the
fact that each per-image call either yields a response text or raises.
Coordinate literals (`34.0522`, `-118.2437`) are embedded as exact
rationals: the code never computes with them, it only stores and
returns them.
-/

namespace WindFarm

/-- Model of Python `summary.lower()` as used at src/agent.py lines
113-118: lowercase every character (`Char.toLower`, basic-latin letters,
which covers every keyword and sample text in the source). -/
def pyLower (s : String) : String :=
  ⟨s.data.map Char.toLower⟩

/-- `leadsWith needle hay` is true iff `needle` is a prefix of `hay`
(character lists compared with `==`). -/
def leadsWith : List Char → List Char → Bool
  | [], _ => true
  | _ :: _, [] => false
  | a :: as, b :: bs => a == b && leadsWith as bs

/-- Model of the Python substring test `needle in hay`: true iff
`needle` occurs contiguously somewhere in `hay`. -/
def containsSub (needle : List Char) : List Char → Bool
  | [] => needle.isEmpty
  | c :: t => leadsWith needle (c :: t) || containsSub needle t

/-- `containsKw summary kw` models the Python test
`kw in summary.lower()` from src/agent.py lines 113-115. -/
def containsKw (summary kw : String) : Bool :=
  containsSub kw.data (pyLower summary).data

/-- The viability classifier of `analyze_satellite_images`
(src/agent.py lines 113-118): high-viability keywords first, then
moderate-viability keywords, else `low`. -/
def classify_viability (summary : String) : String :=
  if containsKw summary "suitable" || containsKw summary "terrain" then "high"
  else if containsKw summary "some" || containsKw summary "moderate" then "moderate"
  else "low"

/-- The four keywords the classifier tests, in the order the source
tests them. -/
def viabilityKeywords : List String :=
  ["suitable", "terrain", "some", "moderate"]

/-- Per-image loop of `analyze_satellite_images` (src/agent.py lines
56-107): each image either yields the classification collaborator's
response text, or, when the call raises `e`, the inline string
`"Error analyzing image {image_url}: {e}"` appended in its slot. -/
def analyze_results (classify : String → Except String String)
    (image_urls : List String) : List String :=
  image_urls.map fun image_url =>
    match classify image_url with
    | Except.ok response_text => response_text
    | Except.error e => "Error analyzing image " ++ image_url ++ ": " ++ e

/-- Result dictionary of `analyze_satellite_images`
(src/agent.py line 120): `{"viability": ..., "analysis": ...}`. -/
structure ImageryResult where
  viability : String
  analysis : String
deriving DecidableEq

/-- `analyze_satellite_images` (src/agent.py lines 41-120) with the
generative-model call abstracted as the `classify` collaborator: run the
per-image loop, join the texts with newlines, classify the summary. -/
def analyze_satellite_images (classify : String → Except String String)
    (image_urls : List String) : ImageryResult :=
  let summary := String.intercalate "\n" (analyze_results classify image_urls)
  { viability := classify_viability summary, analysis := summary }

/-- src/agent.py line 9. -/
def SAMPLE_IMAGE_URLS : List String :=
  ["gs://site_comparisons/beach_image.png"]

/-- A social-media post: `{"sentiment": ..., "text": ...}`. -/
structure Post where
  sentiment : String
  text : String
deriving DecidableEq

/-- src/agent.py lines 10-13. -/
def SAMPLE_SOCIAL_MEDIA_POSTS : List Post :=
  [⟨"negative", "Concerned about wind farm noise"⟩,
   ⟨"positive", "Renewable energy is crucial!"⟩]

/-- src/agent.py line 14. -/
def SAMPLE_REPORT : String :=
  "The environmental impact is minimal..."

/-- Coordinates dictionary `{"latitude": ..., "longitude": ...}`. -/
structure Coord where
  latitude : ℚ
  longitude : ℚ
deriving DecidableEq

/-- `get_lat_long` (src/agent.py lines 18-27): returns the mock Los
Angeles coordinates for every location name. -/
def get_lat_long (location : String) : Coord :=
  ⟨34.0522, -118.2437⟩

/-- `get_earth_engine_images` (src/agent.py lines 29-39): returns the
`image_urls` field of the result dictionary. -/
def get_earth_engine_images (latitude longitude : ℚ) : List String :=
  SAMPLE_IMAGE_URLS

/-- `search_social_media` (src/agent.py lines 122-131): returns the
`posts` field of the result dictionary. -/
def search_social_media (location : String) : List Post :=
  SAMPLE_SOCIAL_MEDIA_POSTS

/-- `check_lawsuits` (src/agent.py lines 133-142): returns the
`lawsuits_found` field of the result dictionary. -/
def check_lawsuits (location : String) : Bool :=
  false

/-- Result dictionary of `check_landownership`. -/
structure LandResult where
  ownership : String
  acquisition_difficulty : String
deriving DecidableEq

/-- `check_landownership` (src/agent.py lines 144-154). -/
def check_landownership (latitude longitude : ℚ) : LandResult :=
  ⟨"private", "high"⟩

/-- `analyze_environmental_report` (src/agent.py lines 156-165):
returns the `key_findings` field of the result dictionary. -/
def analyze_environmental_report (report : String) : List String :=
  ["No endangered species", "Low water usage"]

/-- Result dictionary of `find_nearest_electrical_hub`. -/
structure GridResult where
  distance : ℕ
  estimated_cost : ℕ
deriving DecidableEq

/-- `find_nearest_electrical_hub` (src/agent.py lines 167-177). -/
def find_nearest_electrical_hub (latitude longitude : ℚ) : GridResult :=
  ⟨5, 50000⟩

/-- Modelled from the spec: the sentiment tally (counts per sentiment
label) that the spec names as the Sentiment Assessor's reusable
contract; the reference code passes the posts through unaggregated, so
the tally computation itself is absent from src/. -/
def sentimentTally (posts : List Post) (label : String) : ℕ :=
  (posts.filter fun p => p.sentiment == label).length

/-- Static configuration of one child agent (src/agent.py lines
181-214): name, model, registered tool names, instruction. -/
structure AgentCfg where
  name : String
  model : String
  toolNames : List String
  instruction : String
deriving DecidableEq

/-- src/agent.py lines 181-186. -/
def imagery_agent : AgentCfg :=
  { name := "satellite_imagery_agent"
    model := "gemini-1.5-flash-002"
    toolNames := ["get_lat_long", "get_earth_engine_images", "analyze_satellite_images"]
    instruction := "Use the tools at your disposal to Get lat/long, retrieve images, analyze, and assess viability." }

/-- src/agent.py lines 188-193. -/
def sentiment_agent : AgentCfg :=
  { name := "community_sentiment_agent"
    model := "gemini-1.5-flash-002"
    toolNames := ["search_social_media", "check_lawsuits"]
    instruction := "Use the tools at your disposal to Analyze social media and legal data for community sentiment." }

/-- src/agent.py lines 195-200. -/
def land_agent : AgentCfg :=
  { name := "land_ownership_agent"
    model := "gemini-1.5-flash-002"
    toolNames := ["check_landownership"]
    instruction := "Use the tools at your disposal to Check land ownership and assess acquisition difficulty." }

/-- src/agent.py lines 202-207. -/
def impact_agent : AgentCfg :=
  { name := "environmental_impact_agent"
    model := "gemini-1.5-flash-002"
    toolNames := ["analyze_environmental_report"]
    instruction := "Use the tools at your disposal to Analyze the provided report." }

/-- src/agent.py lines 209-214. -/
def grid_agent : AgentCfg :=
  { name := "electrical_grid_agent"
    model := "gemini-1.5-flash-002"
    toolNames := ["find_nearest_electrical_hub"]
    instruction := "Use the tools at your disposal to Find nearest hub and estimate connection costs." }

/-- Static configuration of the control agent (src/agent.py lines
216-232): flow discipline and the ordered child list. -/
structure ControlCfg where
  name : String
  model : String
  flow : String
  children : List AgentCfg
deriving DecidableEq

/-- src/agent.py lines 216-232: `flow` is the literal `sequential` and
the children appear in the fixed source order. -/
def control_agent : ControlCfg :=
  { name := "control_agent"
    model := "gemini-1.5-flash-002"
    flow := "sequential"
    children := [imagery_agent, sentiment_agent, land_agent, impact_agent, grid_agent] }

/-- Modelled from the spec: the sequential single-threaded execution of
the child stages, which the source delegates to the external agent
framework via `flow=sequential`.  Each stage contributes its whole
event block before the next stage starts. -/
def run_stage_trace (stageEvents : String → List String)
    (stages : List AgentCfg) : List String :=
  stages.foldl (fun acc stage => acc ++ stageEvents stage.name) []

/-- One site's Assessment: one field per stage, as in spec section 3. -/
structure Assessment where
  imagery : ImageryResult
  posts : List Post
  lawsuits_found : Bool
  land : LandResult
  key_findings : List String
  grid : GridResult
deriving DecidableEq

/-- Modelled from the spec: the per-site pipeline of stages 4.1-4.6 that
the source delegates to the agent framework, threading the geocoded
coordinates into the imagery, land and grid stages and the location
name into the sentiment stage. -/
def run_site_assessment (classify : String → Except String String)
    (location : String) : Assessment :=
  let coords := get_lat_long location
  let image_urls := get_earth_engine_images coords.latitude coords.longitude
  { imagery := analyze_satellite_images classify image_urls
    posts := search_social_media location
    lawsuits_found := check_lawsuits location
    land := check_landownership coords.latitude coords.longitude
    key_findings := analyze_environmental_report SAMPLE_REPORT
    grid := find_nearest_electrical_hub coords.latitude coords.longitude }

/-- Numeric rank of a viability level, for the comparison tie-break. -/
def viabilityRank (v : String) : ℕ :=
  if v = "high" then 2 else if v = "moderate" then 1 else 0

/-- The cross-site Comparison: both Assessments side by side plus a
recommendation. -/
structure Comparison where
  siteA : Assessment
  siteB : Assessment
  recommendation : String
deriving DecidableEq

/-- Modelled from the spec: the Comparison step with the deterministic
tie-break order of spec section 4.7 (viability first, then grid cost). -/
def compare_sites (nameA nameB : String) (a b : Assessment) : Comparison :=
  { siteA := a
    siteB := b
    recommendation :=
      if viabilityRank b.imagery.viability < viabilityRank a.imagery.viability then nameA
      else if viabilityRank a.imagery.viability < viabilityRank b.imagery.viability then nameB
      else if a.grid.estimated_cost ≤ b.grid.estimated_cost then nameA else nameB }

/-- Modelled from the spec: the Aggregator run end to end on two sites:
both per-site Assessments, then the Comparison. -/
def run_control (classify : String → Except String String)
    (locA locB : String) : Assessment × Assessment × Comparison :=
  let a := run_site_assessment classify locA
  let b := run_site_assessment classify locB
  (a, b, compare_sites locA locB a b)

/-- A deterministic classification collaborator that fails on the image
reference `"bad"` and succeeds elsewhere. -/
def wClassify : String → Except String String :=
  fun image_url =>
    if image_url = "bad" then Except.error "boom"
    else Except.ok ("ok:" ++ image_url)

end WindFarm

namespace WindFarm

/-- Packing a valid codepoint into a `Char` preserves its numeric value. -/
theorem toNat_ofNat_valid (n : Nat) (h : n.isValidChar) : (Char.ofNat n).toNat = n := by
  unfold Char.ofNat
  rw [dif_pos h]
  rfl

/-- Numeric characterisation of `Char.toLower`: uppercase basic-latin
letters are shifted by 32, everything else is unchanged. -/
theorem toLower_toNat (c : Char) :
    (Char.toLower c).toNat = if c.toNat ≥ 65 ∧ c.toNat ≤ 90 then c.toNat + 32 else c.toNat := by
  unfold Char.toLower
  by_cases h : c.toNat ≥ 65 ∧ c.toNat ≤ 90
  · rw [if_pos h, if_pos h]
    exact toNat_ofNat_valid _ (Or.inl (by omega))
  · rw [if_neg h, if_neg h]

/-- A character that is not an uppercase basic-latin letter is fixed by
`Char.toLower`. -/
theorem toLower_fix (c : Char) (h : ¬(c.toNat ≥ 65 ∧ c.toNat ≤ 90)) : Char.toLower c = c := by
  unfold Char.toLower
  rw [if_neg h]

/-- `Char.toLower` is idempotent. -/
theorem toLower_idem (c : Char) : Char.toLower (Char.toLower c) = Char.toLower c := by
  apply toLower_fix
  rw [toLower_toNat]
  by_cases h : c.toNat ≥ 65 ∧ c.toNat ≤ 90
  · rw [if_pos h]
    omega
  · rw [if_neg h]
    exact h

/-- Lowercasing a string is idempotent. -/
theorem pyLower_idem (s : String) : pyLower (pyLower s) = pyLower s := by
  show String.mk ((s.data.map Char.toLower).map Char.toLower) = String.mk (s.data.map Char.toLower)
  rw [List.map_map]
  exact congrArg String.mk (List.map_congr_left fun c _ => toLower_idem c)

/-- Keyword containment does not change when the text is lowercased
beforehand, because the classifier lowercases the text itself. -/
theorem containsKw_pyLower (s kw : String) : containsKw (pyLower s) kw = containsKw s kw := by
  rw [containsKw, containsKw, pyLower_idem]

/-- The per-image loop produces one entry per input image. -/
theorem analyze_results_length (classify : String → Except String String)
    (image_urls : List String) :
    (analyze_results classify image_urls).length = image_urls.length := by
  simp [analyze_results]

/-- C1: the viability classifier uses first-match keyword precedence
over the merged analysis text: any text containing a high-viability
keyword (`suitable` or `terrain`) classifies as `high` regardless of
co-occurring moderate keywords; with no high keyword but a moderate one
(`some` or `moderate`) it classifies as `moderate`; otherwise `low`.
The result depends only on which keywords occur in the text, not on
their order, so the classification is deterministic and
order-independent. -/
theorem classify_first_match_precedence :
    (∀ s : String, containsKw s "suitable" = true ∨ containsKw s "terrain" = true →
      classify_viability s = "high") ∧
    (∀ s : String, containsKw s "suitable" = false → containsKw s "terrain" = false →
      containsKw s "some" = true ∨ containsKw s "moderate" = true →
      classify_viability s = "moderate") ∧
    (∀ s : String, containsKw s "suitable" = false → containsKw s "terrain" = false →
      containsKw s "some" = false → containsKw s "moderate" = false →
      classify_viability s = "low") ∧
    (∀ s t : String,
      (∀ kw ∈ viabilityKeywords, containsKw s kw = containsKw t kw) →
      classify_viability s = classify_viability t) := by
  refine ⟨?_, ?_, ?_, ?_⟩
  · rintro s (h | h) <;> simp [classify_viability, h]
  · rintro s h1 h2 (h | h) <;> simp [classify_viability, h1, h2, h]
  · intro s h1 h2 h3 h4
    simp [classify_viability, h1, h2, h3, h4]
  · intro s t h
    have e1 := h "suitable" (by simp [viabilityKeywords])
    have e2 := h "terrain" (by simp [viabilityKeywords])
    have e3 := h "some" (by simp [viabilityKeywords])
    have e4 := h "moderate" (by simp [viabilityKeywords])
    simp only [classify_viability, e1, e2, e3, e4]

/-- Witness for C1: a concrete text containing the high keyword
`terrain` together with both moderate keywords still classifies as
`high`. -/
theorem classify_first_match_precedence_witness :
    containsKw "TERRAIN with some moderate issues" "terrain" = true ∧
    classify_viability "TERRAIN with some moderate issues" = "high" :=
  ⟨by decide,
   classify_first_match_precedence.1 "TERRAIN with some moderate issues" (Or.inr (by decide))⟩

/-- C2: on the sample input posts (one negative, one positive) the
Sentiment Assessor's output has a sentiment tally of 1 negative and
1 positive, and both original posts are still present — the output is
the full input list of length 2, losing neither entry.  The same tally
holds for the abbreviated post list named by the claim. -/
theorem sentiment_tally_preserved (location : String) :
    sentimentTally (search_social_media location) "negative" = 1 ∧
    sentimentTally (search_social_media location) "positive" = 1 ∧
    search_social_media location = SAMPLE_SOCIAL_MEDIA_POSTS ∧
    (search_social_media location).length = 2 ∧
    Post.mk "negative" "Concerned about wind farm noise" ∈ search_social_media location ∧
    Post.mk "positive" "Renewable energy is crucial!" ∈ search_social_media location ∧
    sentimentTally [Post.mk "negative" "noise", Post.mk "positive" "renewable"] "negative" = 1 ∧
    sentimentTally [Post.mk "negative" "noise", Post.mk "positive" "renewable"] "positive" = 1 := by
  refine ⟨?_, ?_, rfl, rfl, ?_, ?_, by decide, by decide⟩
  · show sentimentTally SAMPLE_SOCIAL_MEDIA_POSTS "negative" = 1
    decide
  · show sentimentTally SAMPLE_SOCIAL_MEDIA_POSTS "positive" = 1
    decide
  · show Post.mk "negative" "Concerned about wind farm noise" ∈ SAMPLE_SOCIAL_MEDIA_POSTS
    decide
  · show Post.mk "positive" "Renewable energy is crucial!" ∈ SAMPLE_SOCIAL_MEDIA_POSTS
    decide

/-- C3: whatever the classification collaborator does, the per-image
result list has exactly one entry per input image, in input order; a
slot whose classification call fails holds the inline error string
`Error analyzing image {url}: {e}`, and a slot whose call succeeds
holds the response text — so one failing image never prevents the
others from being classified. -/
theorem analyze_partial_failure (classify : String → Except String String)
    (image_urls : List String) :
    (analyze_results classify image_urls).length = image_urls.length ∧
    (∀ (i : Fin image_urls.length) (e : String),
      classify (image_urls.get i) = Except.error e →
      (analyze_results classify image_urls).get
          (Fin.cast (analyze_results_length classify image_urls).symm i) =
        "Error analyzing image " ++ image_urls.get i ++ ": " ++ e) ∧
    (∀ (i : Fin image_urls.length) (t : String),
      classify (image_urls.get i) = Except.ok t →
      (analyze_results classify image_urls).get
          (Fin.cast (analyze_results_length classify image_urls).symm i) = t) := by
  refine ⟨analyze_results_length classify image_urls, ?_, ?_⟩
  · intro i e h
    simp [analyze_results, List.get_eq_getElem] at h ⊢
    simp [h]
  · intro i t h
    simp [analyze_results, List.get_eq_getElem] at h ⊢
    simp [h]

/-- Witness for C3: in a batch of three images whose middle image fails
with `boom`, the middle output slot holds the inline error string. -/
theorem analyze_partial_failure_witness :
    wClassify ((["good", "bad", "fine"] : List String).get ⟨1, by decide⟩) =
      Except.error "boom" ∧
    (analyze_results wClassify ["good", "bad", "fine"]).get
        (Fin.cast (analyze_results_length wClassify ["good", "bad", "fine"]).symm
          ⟨1, by decide⟩) =
      "Error analyzing image " ++
        (["good", "bad", "fine"] : List String).get ⟨1, by decide⟩ ++ ": " ++ "boom" :=
  ⟨rfl,
   (analyze_partial_failure wClassify ["good", "bad", "fine"]).2.1 ⟨1, by decide⟩ "boom" rfl⟩

/-- C4: the Imagery Assessor is a total function — it returns a result
on every image-reference list (never raises) — and on the empty list it
returns viability `low` with empty analysis text. -/
theorem imagery_total_empty_low :
    (∀ (classify : String → Except String String) (image_urls : List String),
      ∃ r : ImageryResult, analyze_satellite_images classify image_urls = r) ∧
    (∀ classify : String → Except String String,
      analyze_satellite_images classify [] = ⟨"low", ""⟩) :=
  ⟨fun classify image_urls => ⟨analyze_satellite_images classify image_urls, rfl⟩,
   fun _ => rfl⟩

/-- C5: the Imagery Assessor's analysis field is the newline-joined
concatenation, in input order, of the per-image texts (the response for
a successful image, the inline error string for a failed one), and its
viability field is always one of exactly `high`, `moderate`, `low`. -/
theorem imagery_output_shape (classify : String → Except String String)
    (image_urls : List String) :
    (analyze_satellite_images classify image_urls).analysis =
      String.intercalate "\n" (image_urls.map fun image_url =>
        match classify image_url with
        | Except.ok response_text => response_text
        | Except.error e => "Error analyzing image " ++ image_url ++ ": " ++ e) ∧
    ((analyze_satellite_images classify image_urls).viability = "high" ∨
     (analyze_satellite_images classify image_urls).viability = "moderate" ∨
     (analyze_satellite_images classify image_urls).viability = "low") := by
  constructor
  · rfl
  · show classify_viability _ = "high" ∨ classify_viability _ = "moderate" ∨
      classify_viability _ = "low"
    unfold classify_viability
    split_ifs <;> simp

/-- C6: the Geocoder succeeds on every location name, returning the
fixed coordinates latitude 34.0522, longitude -118.2437; the reference
behaviour is unresolvable-free (the `LookupError` path is never
taken). -/
theorem geocoder_always_fixed (location : String) :
    get_lat_long location = { latitude := 34.0522, longitude := -118.2437 } :=
  rfl

/-- C7: with a deterministic classification collaborator the whole
pipeline is deterministic — every tool function called twice on equal
inputs returns equal outputs, and running the Aggregator twice on the
same two sites yields identical Assessments and Comparison. -/
theorem pipeline_deterministic (classify : String → Except String String)
    (location locA locB report : String) (latitude longitude : ℚ)
    (image_urls : List String) :
    get_lat_long location = get_lat_long location ∧
    get_earth_engine_images latitude longitude = get_earth_engine_images latitude longitude ∧
    search_social_media location = search_social_media location ∧
    check_lawsuits location = check_lawsuits location ∧
    check_landownership latitude longitude = check_landownership latitude longitude ∧
    analyze_environmental_report report = analyze_environmental_report report ∧
    find_nearest_electrical_hub latitude longitude = find_nearest_electrical_hub latitude longitude ∧
    analyze_satellite_images classify image_urls = analyze_satellite_images classify image_urls ∧
    run_control classify locA locB = run_control classify locA locB :=
  ⟨rfl, rfl, rfl, rfl, rfl, rfl, rfl, rfl, rfl⟩

/-- C8: for every pair of coordinates the Land Assessor's ownership is
one of `private`, `public`, `mixed`, `unknown` and its acquisition
difficulty is one of `low`, `moderate`, `high`. -/
theorem landownership_range (latitude longitude : ℚ) :
    (check_landownership latitude longitude).ownership ∈
      (["private", "public", "mixed", "unknown"] : List String) ∧
    (check_landownership latitude longitude).acquisition_difficulty ∈
      (["low", "moderate", "high"] : List String) :=
  ⟨by show ("private" : String) ∈ ["private", "public", "mixed", "unknown"]
      decide,
   by show ("high" : String) ∈ ["low", "moderate", "high"]
      decide⟩

/-- C9: the control agent is configured with the `sequential` flow and
the fixed stage order imagery, sentiment, land, environmental, grid;
under the sequential execution model every event of a stage precedes
every event of later stages — the trace is the plain concatenation of
the per-stage event blocks in that fixed order, with no interleaving. -/
theorem control_sequential_order (stageEvents : String → List String) :
    control_agent.flow = "sequential" ∧
    control_agent.children.map AgentCfg.name =
      ["satellite_imagery_agent", "community_sentiment_agent", "land_ownership_agent",
       "environmental_impact_agent", "electrical_grid_agent"] ∧
    run_stage_trace stageEvents control_agent.children =
      stageEvents "satellite_imagery_agent" ++ stageEvents "community_sentiment_agent" ++
        stageEvents "land_ownership_agent" ++ stageEvents "environmental_impact_agent" ++
        stageEvents "electrical_grid_agent" :=
  ⟨rfl, by decide, rfl⟩

/-- C10: viability classification is case-insensitive — classifying a
lowercased text gives the same result as classifying the original,
because the classifier lowercases the text before keyword matching; in
particular texts containing `SUITABLE` or `Terrain` classify as
`high`. -/
theorem classify_case_insensitive :
    (∀ s : String, classify_viability (pyLower s) = classify_viability s) ∧
    classify_viability "SUITABLE" = "high" ∧
    classify_viability "Terrain" = "high" := by
  refine ⟨?_, by decide, by decide⟩
  intro s
  simp only [classify_viability, containsKw_pyLower]

end WindFarm
